import Mathlib

/-!
Verification of the multi-turn outbound phone-call reservation flow of the
Sera repository. The definitions below are a shallow embedding of the Python
sources `tools/reservation_agent.py`, `reservation_server.py` and
`restaurant_prompts.py`: pure Python functions become Lean functions,
mutable module state becomes explicit state passing over a `ServerState`
record with an explicit object heap (Python objects are mutated through
references, so aliasing is modelled by numeric references into a heap), and
every external effect (LLM generation call, HTTP POST, telephony placement)
becomes an explicit outcome parameter.
-/

set_option maxRecDepth 4000

namespace Sera

/-- Python `datetime` value at second resolution, as used by the sources
(`datetime.now()`, `datetime.fromisoformat`, `strftime`). -/
structure PyDateTime where
  year : Nat
  month : Nat
  day : Nat
  hour : Nat
  minute : Nat
  second : Nat
deriving DecidableEq, Repr

/-- Monotone encoding of a `PyDateTime` used for chronological comparison;
for in-range field values it agrees with lexicographic field order, which is
how Python compares `datetime` values. -/
def PyDateTime.key (t : PyDateTime) : Nat :=
  ((((t.year * 13 + t.month) * 32 + t.day) * 24 + t.hour) * 60 + t.minute) * 60 + t.second

/-- Zero-padded two-digit rendering, as `strftime` produces for `%m`, `%d`, `%H`, `%M`. -/
def pad2 (n : Nat) : String :=
  if n < 10 then ("0") ++ toString n else toString n

/-- Zero-padded four-digit rendering for `%Y`. -/
def pad4 (n : Nat) : String :=
  if n < 10 then ("000") ++ toString n
  else if n < 100 then ("00") ++ toString n
  else if n < 1000 then ("0") ++ toString n
  else toString n

/-- Embedding of `datetime.strftime("%Y-%m-%d %H:%M")`, the rendering used by
`get_extract_reservation_details_prompt` in `restaurant_prompts.py`. Note that
the seconds of the wall-clock reading are dropped. -/
def strftimeYmdHM (t : PyDateTime) : String :=
  pad4 t.year ++ "-" ++ pad2 t.month ++ "-" ++ pad2 t.day ++ " " ++ pad2 t.hour ++ ":" ++ pad2 t.minute

/-- Embedding of Python `str.startswith`, written over the character list so
that it evaluates inside the kernel. -/
def strStartsWith (s pre : String) : Bool :=
  pre.toList.isPrefixOf s.toList

/-- Embedding of `re.sub(r"\D", "", phone)` from
`TwilioReservationAgent.format_phone_number`: keep only digit characters. -/
def stripNonDigits (s : String) : String :=
  String.mk (s.toList.filter Char.isDigit)

/-- The literal `ValueError` message raised by `format_phone_number`. -/
def invalidPhoneMessage : String :=
  "Invalid phone number format. Please provide a 10-digit US number or international number with country code."

/-- Embedding of `TwilioReservationAgent.format_phone_number`
(`tools/reservation_agent.py`, lines 61-78). The raised `ValueError` is
modelled as `Except.error`. -/
def format_phone_number (phone : String) : Except String String :=
  let digits := stripNonDigits phone
  if strStartsWith phone ("+") = true then
    Except.ok ("+" ++ digits)
  else if digits.length = 10 then
    Except.ok ("+1" ++ digits)
  else if digits.length = 11 ∧ strStartsWith digits ("1") = true then
    Except.ok ("+" ++ digits)
  else
    Except.error invalidPhoneMessage

/-- C1: the Phone Number Normalizer strips non-digits; a `+`-prefixed input
yields `+` followed by the stripped digits; otherwise exactly 10 digits get a
`+1` prefix, exactly 11 digits starting with `1` get a `+` prefix, and every
other digit count fails with the `InvalidPhoneNumber` message describing the
two accepted formats; `"1234567890" ↦ "+11234567890"`,
`"+441234567890" ↦ "+441234567890"`, and `"123"` fails. -/
theorem phone_normalizer_spec (phone : String) :
    (strStartsWith phone ("+") = true →
      format_phone_number phone = Except.ok ("+" ++ stripNonDigits phone)) ∧
    (strStartsWith phone ("+") = false → (stripNonDigits phone).length = 10 →
      format_phone_number phone = Except.ok ("+1" ++ stripNonDigits phone)) ∧
    (strStartsWith phone ("+") = false → (stripNonDigits phone).length = 11 →
      strStartsWith (stripNonDigits phone) ("1") = true →
      format_phone_number phone = Except.ok ("+" ++ stripNonDigits phone)) ∧
    (strStartsWith phone ("+") = false → (stripNonDigits phone).length ≠ 10 →
      ((stripNonDigits phone).length = 11 → strStartsWith (stripNonDigits phone) ("1") = false) →
      format_phone_number phone = Except.error invalidPhoneMessage) ∧
    format_phone_number ("1234567890") = Except.ok ("+11234567890") ∧
    format_phone_number ("+441234567890") = Except.ok ("+441234567890") ∧
    format_phone_number ("123") = Except.error invalidPhoneMessage := by
  refine ⟨?_, ?_, ?_, ?_, rfl, rfl, rfl⟩
  · intro h
    simp only [format_phone_number, h, if_true]
  · intro h hlen
    simp only [format_phone_number, h, Bool.false_eq_true, if_false, hlen, if_true]
  · intro h hlen hone
    simp only [format_phone_number, h, Bool.false_eq_true, if_false]
    rw [if_neg (by omega), if_pos ⟨hlen, hone⟩]
  · intro h hlen hone
    simp only [format_phone_number, h, Bool.false_eq_true, if_false]
    rw [if_neg hlen, if_neg ?_]
    rintro ⟨h11, hs⟩
    rw [hone h11] at hs
    exact Bool.false_ne_true hs

/-- Concrete instantiation of `phone_normalizer_spec` at a separator-laden
10-digit input. -/
theorem phone_normalizer_spec_witness :
    format_phone_number ("(650) 555-0199") = Except.ok ("+1" ++ stripNonDigits ("(650) 555-0199")) :=
  (phone_normalizer_spec ("(650) 555-0199")).2.1 (by decide) (by decide)

/-- C10: for a `+`-prefixed input the normalizer always succeeds with `+`
followed by the stripped digits, whatever the digit count — the error branch
is unreachable there, and in particular `"+"` maps to `"+"`. -/
theorem plus_prefix_total (phone : String) (h : strStartsWith phone ("+") = true) :
    format_phone_number phone = Except.ok ("+" ++ stripNonDigits phone) ∧
    (∀ e, format_phone_number phone ≠ Except.error e) ∧
    format_phone_number ("+") = Except.ok ("+") := by
  have h1 : format_phone_number phone = Except.ok ("+" ++ stripNonDigits phone) := by
    simp only [format_phone_number, h, if_true]
  refine ⟨h1, ?_, rfl⟩
  intro e he
  rw [h1] at he
  exact Except.noConfusion he

/-- Concrete instantiation of `plus_prefix_total` at the bare input `"+"`. -/
theorem plus_prefix_total_witness :
    (strStartsWith ("+") ("+") = true) ∧ format_phone_number ("+") = Except.ok ("+") :=
  ⟨by decide, (plus_prefix_total ("+") (by decide)).2.2⟩

/-- Splitting a character list at a separator, the semantics of Python
`str.split(sep)` for a one-character separator (used to embed ISO date-time
parsing over explicit character lists). -/
def splitOnChar (sep : Char) : List Char → List (List Char)
  | [] => [[]]
  | c :: rest =>
    let r := splitOnChar sep rest
    if c = sep then [] :: r
    else
      match r with
      | [] => [[c]]
      | h :: t => (c :: h) :: t

/-- All-digit character list to a number; `none` when empty or containing a
non-digit. -/
def digitsToNat (l : List Char) : Option Nat :=
  if l ≠ [] ∧ l.all Char.isDigit then
    some (l.foldl (fun n c => n * 10 + (c.toNat - 48)) 0)
  else none

/-- The `ValueError` message of Python `datetime.fromisoformat`. -/
def invalidIsoMessage (s : String) : String :=
  "Invalid isoformat string: \x27" ++ s ++ "\x27"

/-- Embedding of `datetime.fromisoformat` for the shapes the extraction
contract produces: `YYYY-MM-DD`, optionally followed by a one-character
separator and `HH:MM` or `HH:MM:SS`. Field ranges are checked as Python does,
except that the per-month day count is approximated by `1..31` uniformly.
Failure carries the `ValueError` message. -/
def fromisoformat (s : String) : Except String PyDateTime :=
  let chars := s.toList
  match splitOnChar ('-') (chars.take 10) with
  | [ys, ms, ds] =>
    match digitsToNat ys, digitsToNat ms, digitsToNat ds with
    | some y, some mo, some d =>
      if ys.length = 4 ∧ ms.length = 2 ∧ ds.length = 2 ∧
          1 ≤ mo ∧ mo ≤ 12 ∧ 1 ≤ d ∧ d ≤ 31 then
        match chars.drop 10 with
        | [] => Except.ok ⟨y, mo, d, 0, 0, 0⟩
        | _sep :: time =>
          match splitOnChar (':') time with
          | [hs, ns] =>
            match digitsToNat hs, digitsToNat ns with
            | some h, some n =>
              if hs.length = 2 ∧ ns.length = 2 ∧ h ≤ 23 ∧ n ≤ 59 then
                Except.ok ⟨y, mo, d, h, n, 0⟩
              else Except.error (invalidIsoMessage s)
            | _, _ => Except.error (invalidIsoMessage s)
          | [hs, ns, ss] =>
            match digitsToNat hs, digitsToNat ns, digitsToNat ss with
            | some h, some n, some sec =>
              if hs.length = 2 ∧ ns.length = 2 ∧ ss.length = 2 ∧
                  h ≤ 23 ∧ n ≤ 59 ∧ sec ≤ 59 then
                Except.ok ⟨y, mo, d, h, n, sec⟩
              else Except.error (invalidIsoMessage s)
            | _, _, _ => Except.error (invalidIsoMessage s)
          | _ => Except.error (invalidIsoMessage s)
      else Except.error (invalidIsoMessage s)
    | _, _, _ => Except.error (invalidIsoMessage s)
  | _ => Except.error (invalidIsoMessage s)

/-- The reservation context class `ReservationDetails`. Its defining module
`tools/prompts/reservation_prompts.py` is not among the sources here; the
fields are those of the `ReservationDetails` dataclass in
`restaurant_prompts.py` plus the `chat_history` and `status` attributes that
`tools/reservation_agent.py` and `reservation_server.py` read and write.
Dynamic typing lets JSON `null` reach any field the extraction flow copies
verbatim, so those fields are `Option`s. -/
structure ReservationDetails where
  restaurant_phone : String
  party_size : Option Int
  reservation_time : PyDateTime
  customer_name : Option String
  special_requests : Option String
  chat_history : List String
  status : Option String := none
deriving DecidableEq, Repr

/-- The `details` object of the extraction JSON reply of the contract
(`restaurant_prompts.py`, `Return in JSON format` block). `none` stands for a
JSON `null` (or absent) field. -/
structure ExtractDetails where
  phone_number : Option String
  party_size : Option Int
  reservation_time : Option String
  customer_name : Option String
  special_requests : Option String
deriving DecidableEq, Repr

/-- The top-level extraction contract reply. `error_message = none` stands
for an absent key, making `result.get("error_message", default)` take the
default. -/
structure ExtractResult where
  complete : Bool
  missing_fields : List String
  error_message : Option String
  details : Option ExtractDetails
deriving DecidableEq, Repr

/-- What `json.loads(response...content)` plus key access yields:
`malformed` covers unparseable JSON and a missing `complete`/`details` key
(`json.JSONDecodeError`/`KeyError`, both caught by the outer
`except Exception`), `parsed` a well-shaped reply. -/
inductive ModelOutput where
  | malformed
  | parsed (r : ExtractResult)
deriving DecidableEq, Repr

/-- The generic failure message of outer
`except Exception` handler of `parse_reservation_request`. -/
def cantProcessMessage : String :=
  "I couldn\x27t process that request. Please provide the restaurant\x27s phone number (10 digits for US or with country code), party size, time, and name for the reservation."

/-- The default used by `result.get("error_message", ...)` when the reply has
no `error_message` key. -/
def provideAllMessage : String :=
  "Please provide all the required information for the reservation."

/-- The fixed instruction body `EXTRACT_RESERVATION_DETAILS_PROMPT` of
`restaurant_prompts.py` (lines 15-86), verbatim. -/
def EXTRACT_RESERVATION_DETAILS_PROMPT : String :=
  "\n    Validate the following:
    1. All required fields are present
    2. Reservation time must be in the future
    3. Phone number must be either:
       - 10 digits for US numbers (will add +1)
       - Full international format with + and country code
    4. Party size must be a positive number

    Required fields: phone_number, party_size, reservation_time, customer_name
    Optional fields: special_requests

    Phone number format:
    - US numbers: 10 digits (e.g., \"1234567890\" or \"123-456-7890\")
    - International: Include + and country code (e.g., \"+441234567890\")
    Note: US numbers will automatically get +1 prefix if not provided.

    Handle these date/time formats:
    - Relative: \"tomorrow\", \"next Tuesday\", \"this Friday\"
    - Time: \"7pm\", \"7:30 PM\", \"19:30\"
    - Combined: \"tomorrow at 7\", \"next Friday at 8:30 PM\"

    If information is missing, provide a helpful error message explaining what\x27s needed.
    Example error messages:
    - \"Please provide a phone number for the restaurant\"
    - \"I need to know the name for the reservation\"
    - \"Could you specify what time you\x27d like the reservation?\"
    - \"How many people will be dining?\"

    Return in JSON format:
    \x7b
        \"complete\": true/false,
        \"missing_fields\": [\"field1\", \"field2\"],
        \"error_message\": \"A helpful, conversational message explaining what information is needed\",
        \"details\": \x7b
            \"phone_number\": \"phone number with country code\",
            \"party_size\": number,
            \"reservation_time\": \"YYYY-MM-DD HH:MM\",
            \"customer_name\": \"name\",
            \"special_requests\": \"requests or null\"
        \x7d
    \x7d

    Examples:
    Message: Make a reservation for 4 people tomorrow at 7:30 PM
    Response: \x7b
        \"complete\": false,
        \"missing_fields\": [\"phone_number\", \"customer_name\"],
        \"error_message\": \"I can help make that reservation for 4 people tomorrow evening. I just need the restaurant\x27s phone number and the name to put the reservation under. Could you provide those details?\",
        \"details\": \x7b
            \"phone_number\": null,
            \"party_size\": 4,
            \"reservation_time\": \"2024-03-08 19:30\",
            \"customer_name\": null,
            \"special_requests\": null
        \x7d
    \x7d

    Message: Book a table at +1234567890 for tomorrow night under Mike
    Response: \x7b
        \"complete\": false,
        \"missing_fields\": [\"party_size\"],
        \"error_message\": \"I\x27ll be happy to make a reservation for tomorrow night under Mike\x27s name. How many people will be in your party?\",
        \"details\": \x7b
            \"phone_number\": \"+1234567890\",
            \"party_size\": null,
            \"reservation_time\": \"2024-03-08 19:00\",
            \"customer_name\": \"Mike\",
            \"special_requests\": null
        \x7d
    \x7d
    "

/-- The header `EXTRACT_RESERVATION_DETAILS_PROMPT_HEADER.format(cur_time=...)` of
`restaurant_prompts.py` (lines 87-90). -/
def extract_details_prompt_header (curTime : String) : String :=
  "\n    Extract reservation details from the message and convert relative dates/times to absolute dates.\n    Current date/time reference: " ++ curTime ++ "\n    "

/-- Embedding of `get_extract_reservation_details_prompt`
(`restaurant_prompts.py`, lines 93-98). The Python function takes no
parameter and reads `datetime.now()`; that side effect is the explicit
`now` argument here. -/
def get_extract_reservation_details_prompt (now : PyDateTime) : String :=
  extract_details_prompt_header (strftimeYmdHM now) ++ EXTRACT_RESERVATION_DETAILS_PROMPT

/-- The user-role content `f"Message: {message}\nOutput:"` sent alongside the
system prompt in `parse_reservation_request`. -/
def mistralUserContent (message : String) : String :=
  "Message: " ++ message ++ "\nOutput:"

/-- The body of `parse_reservation_request` after the LLM call returned
content (`tools/reservation_agent.py`, lines 221-259): the `try`/`except`
ladder around JSON access, `format_phone_number` and
`datetime.fromisoformat`. A `none` in `phone_number`/`reservation_time`
raises `TypeError` in Python (`re.sub`/`fromisoformat` on `None`), landing in
the outer generic handler, not the `except ValueError` branch. -/
def processModelOutput (out : ModelOutput) :
    Bool × Option ReservationDetails × Option String :=
  match out with
  | ModelOutput.malformed => (false, none, some cantProcessMessage)
  | ModelOutput.parsed r =>
    if r.complete = false then
      (false, none, some (r.error_message.getD provideAllMessage))
    else
      match r.details with
      | none => (false, none, some cantProcessMessage)
      | some d =>
        match d.phone_number with
        | none => (false, none, some cantProcessMessage)
        | some ph =>
          match format_phone_number ph with
          | Except.error e => (false, none, some e)
          | Except.ok formatted =>
            match d.reservation_time with
            | none => (false, none, some cantProcessMessage)
            | some ts =>
              match fromisoformat ts with
              | Except.error e => (false, none, some e)
              | Except.ok t =>
                (true,
                 some { restaurant_phone := formatted,
                        party_size := d.party_size,
                        reservation_time := t,
                        customer_name := d.customer_name,
                        special_requests := d.special_requests,
                        chat_history := [] },
                 none)

/-- Embedding of `TwilioReservationAgent.parse_reservation_request`
(`tools/reservation_agent.py`, lines 206-259) with the LLM modelled as an
oracle from the (system prompt, user content) pair to a `ModelOutput`, and
the internal `datetime.now()` reading passed as `now`. -/
def parse_reservation_request (now : PyDateTime)
    (oracle : String → String → ModelOutput) (message : String) :
    Bool × Option ReservationDetails × Option String :=
  processModelOutput
    (oracle (get_extract_reservation_details_prompt now) (mistralUserContent message))

/-- One outcome of `self._mistal_client.chat.complete_async`: either the SDK
raises (rate limit and other transport errors — that call sits outside any
`try`, so the exception propagates), or content comes back. -/
inductive LLMCallOutcome where
  | rateLimited (err : String)
  | responded (out : ModelOutput)
deriving DecidableEq, Repr

/-- Runs `parse_reservation_request` against a provider trace: `trace` lists the
outcome each successive LLM call would get. The second component of the pair
counts the calls actually issued; the `Except` layer models a propagating
SDK exception. The source makes exactly one call, so only the head of the
trace is ever consumed. -/
def parse_reservation_request_calls (now : PyDateTime) (message : String)
    (trace : List LLMCallOutcome) :
    Except String (Bool × Option ReservationDetails × Option String) × Nat :=
  match trace with
  | [] => (Except.error ("no provider outcome"), 0)
  | LLMCallOutcome.rateLimited e :: _ => (Except.error e, 1)
  | LLMCallOutcome.responded out :: _ => (Except.ok (processModelOutput out), 1)

/-- C8 (amended): the extractor issues exactly one LLM call — a rate-limit
error propagates immediately with no retry and no backoff, and malformed
model output is not retried but converted into an incomplete result with the
generic failure message. -/
theorem llm_call_no_retry (now : PyDateTime) (message e : String)
    (rest : List LLMCallOutcome) (out : ModelOutput) :
    parse_reservation_request_calls now message (LLMCallOutcome.rateLimited e :: rest) =
      (Except.error e, 1) ∧
    parse_reservation_request_calls now message (LLMCallOutcome.responded out :: rest) =
      (Except.ok (processModelOutput out), 1) ∧
    parse_reservation_request_calls now message (LLMCallOutcome.responded ModelOutput.malformed :: rest) =
      (Except.ok (false, none, some cantProcessMessage), 1) :=
  ⟨rfl, rfl, rfl⟩

/-- A concrete extraction reply that would have completed successfully, used
to show that no retry ever reaches it. -/
def retryProbeReply : ExtractResult :=
  { complete := true,
    missing_fields := [],
    error_message := none,
    details := some { phone_number := some ("+15551230001"),
                      party_size := some 2,
                      reservation_time := some ("2025-01-01 19:00"),
                      customer_name := some ("Ann"),
                      special_requests := none } }

/-- C8 counterexample: with a rate-limited first call and a successful reply
available on the second attempt, the extractor propagates the rate-limit
error after a single call — it performs no retry at all, contradicting the
claimed capped exponential-backoff retry. -/
theorem llm_rate_limit_not_retried_counterexample :
    parse_reservation_request_calls ⟨2024, 3, 7, 18, 0, 0⟩ ("please book a table")
      [LLMCallOutcome.rateLimited ("Status 429: rate limited"),
       LLMCallOutcome.responded (ModelOutput.parsed retryProbeReply)] =
      (Except.error ("Status 429: rate limited"), 1) :=
  rfl

/-- Substring test over character lists (kernel-evaluable): some tail of `s`
starts with `pat`. -/
def containsStr (s pat : String) : Bool :=
  s.toList.tails.any (fun t => pat.toList.isPrefixOf t)

/-- An error message "about the time needing to be in the future" is read as
one mentioning the word `future`. -/
def mentionsFuture (m : String) : Bool :=
  containsStr m ("future")

/-- Compliance of one model reply with rule 2 of the extraction contract
(`restaurant_prompts.py`: `Reservation time must be in the future`, relative
to the current-time reference of the header): whenever the reply carries a
resolvable reservation time at or before `now`, the reply is incomplete and
its error message mentions the future requirement. -/
def FutureRuleCompliant (now : PyDateTime) (out : ModelOutput) : Prop :=
  ∀ r d ts t, out = ModelOutput.parsed r → r.details = some d →
    d.reservation_time = some ts → fromisoformat ts = Except.ok t →
    t.key ≤ now.key →
    r.complete = false ∧ ∃ m, r.error_message = some m ∧ mentionsFuture m = true

/-- C6: against any model honouring the futurity rule of the contract, a message
whose extracted reservation time resolves to `now` or earlier makes the
extractor return an incomplete result whose error message mentions the
future requirement, and the extractor never returns a complete
`ReservationDetails` whose reservation time is at or before `now`. -/
theorem extractor_future_rule (now : PyDateTime)
    (oracle : String → String → ModelOutput) (message : String)
    (hc : FutureRuleCompliant now
      (oracle (get_extract_reservation_details_prompt now) (mistralUserContent message))) :
    (∀ r d ts t,
        oracle (get_extract_reservation_details_prompt now) (mistralUserContent message) =
          ModelOutput.parsed r →
        r.details = some d → d.reservation_time = some ts →
        fromisoformat ts = Except.ok t → t.key ≤ now.key →
        ∃ m, parse_reservation_request now oracle message = (false, none, some m) ∧
          mentionsFuture m = true) ∧
    (∀ res, (parse_reservation_request now oracle message).2.1 = some res →
        now.key < res.reservation_time.key) := by
  constructor
  · intro r d ts t hr hd hts ht hle
    obtain ⟨hcomp, m, hm, hfut⟩ := hc r d ts t hr hd hts ht hle
    refine ⟨m, ?_, hfut⟩
    unfold parse_reservation_request
    rw [hr]
    simp [processModelOutput, hcomp, hm]
  · intro res hres
    unfold parse_reservation_request at hres
    cases hO : oracle (get_extract_reservation_details_prompt now) (mistralUserContent message) with
    | malformed =>
      rw [hO] at hres
      simp [processModelOutput] at hres
    | parsed r =>
      rw [hO] at hres
      simp only [processModelOutput] at hres
      by_cases hcomp : r.complete = false
      · simp [hcomp] at hres
      · rw [if_neg hcomp] at hres
        split at hres
        · simp at hres
        next d hdet =>
          split at hres
          · simp at hres
          next ph hph =>
            split at hres
            · simp at hres
            next fp hfp =>
              split at hres
              · simp at hres
              next ts hts =>
                split at hres
                · simp at hres
                next t hiso =>
                  simp only [Option.some.injEq] at hres
                  subst hres
                  show now.key < t.key
                  by_contra hlt
                  obtain ⟨hfalse, -⟩ :=
                    hc r d ts t hO hdet hts hiso (by omega)
                  exact hcomp hfalse

/-- A contract-compliant reply for a past-time request: incomplete, with a
future-time error message. -/
def futureWitnessReply : ExtractResult :=
  { complete := false,
    missing_fields := [],
    error_message := some ("The reservation time must be in the future. Could you pick a later time?"),
    details := some { phone_number := some ("+15551230001"),
                      party_size := some 2,
                      reservation_time := some ("2024-03-07 10:00"),
                      customer_name := some ("Ann"),
                      special_requests := none } }

/-- A constant model oracle answering with `futureWitnessReply`. -/
def futureWitnessOracle : String → String → ModelOutput :=
  fun _ _ => ModelOutput.parsed futureWitnessReply

/-- The oracle `futureWitnessOracle` honours the futurity rule at any reference time. -/
theorem futureWitnessOracle_compliant (now : PyDateTime) :
    FutureRuleCompliant now (ModelOutput.parsed futureWitnessReply) := by
  intro r d ts t hr hd hts ht hle
  cases hr
  exact ⟨rfl, "The reservation time must be in the future. Could you pick a later time?",
    rfl, by decide⟩

/-- Concrete instantiation of `extractor_future_rule`: at reference time
2024-03-07 18:00, an extraction resolving to 10:00 the same day yields an
incomplete result. -/
theorem extractor_future_rule_witness :
    (parse_reservation_request ⟨2024, 3, 7, 18, 0, 0⟩ futureWitnessOracle
        ("book a table at 10am today")).1 = false := by
  obtain ⟨m, hm, -⟩ :=
    (extractor_future_rule ⟨2024, 3, 7, 18, 0, 0⟩ futureWitnessOracle
        ("book a table at 10am today") (futureWitnessOracle_compliant _)).1
      futureWitnessReply
      { phone_number := some ("+15551230001"), party_size := some 2,
        reservation_time := some ("2024-03-07 10:00"),
        customer_name := some ("Ann"), special_requests := none }
      ("2024-03-07 10:00") ⟨2024, 3, 7, 10, 0, 0⟩ rfl rfl rfl rfl (by decide)
  rw [hm]

/-- A model oracle that simply reflects the system prompt it was given back
as its error message — a fixed, deterministic model behaviour. -/
def clockEchoOracle : String → String → ModelOutput :=
  fun sys _ =>
    ModelOutput.parsed
      { complete := false, missing_fields := [], error_message := some sys, details := none }

/-- C7 counterexample: with the user message and the model behaviour fixed,
running the extractor under two different wall-clock readings (18:00 versus
18:01) produces different results — the current-time reference is read from
the wall clock inside prompt construction (`datetime.now()` in
`get_extract_reservation_details_prompt`), not injected, so the result is
not independent of the system clock. -/
theorem extractor_clock_dependence_counterexample :
    parse_reservation_request ⟨2024, 3, 7, 18, 0, 0⟩ clockEchoOracle ("hi") ≠
      parse_reservation_request ⟨2024, 3, 7, 18, 1, 0⟩ clockEchoOracle ("hi") := by
  decide

/-- C7 (amended): the current-time reference is read from the wall clock
inside prompt construction rather than injected; the extractor depends on
the clock only through the minute-resolution `%Y-%m-%d %H:%M` rendering in
the prompt, so two runs whose clock readings render identically (e.g.
differing only in seconds) produce the same result for a fixed message and
fixed model behaviour. -/
theorem extractor_clock_minute_resolution (t1 t2 : PyDateTime)
    (oracle : String → String → ModelOutput) (message : String)
    (h : strftimeYmdHM t1 = strftimeYmdHM t2) :
    parse_reservation_request t1 oracle message =
      parse_reservation_request t2 oracle message := by
  unfold parse_reservation_request get_extract_reservation_details_prompt
  rw [h]

/-- Concrete instantiation of `extractor_clock_minute_resolution`: two clock
readings differing only in seconds give identical extractor results. -/
theorem extractor_clock_minute_resolution_witness :
    parse_reservation_request ⟨2024, 3, 7, 18, 0, 0⟩ clockEchoOracle ("hi") =
      parse_reservation_request ⟨2024, 3, 7, 18, 0, 30⟩ clockEchoOracle ("hi") :=
  extractor_clock_minute_resolution ⟨2024, 3, 7, 18, 0, 0⟩ ⟨2024, 3, 7, 18, 0, 30⟩
    clockEchoOracle ("hi") rfl

/-- Call-control document verbs, the abstract form of the TwiML built with
`VoiceResponse`/`gather.say` in the sources (`say` text and voice;
`gather` with its `input`, `action`, `method`, `language`, `speechTimeout`
attributes and nested verbs). A document is the list of top-level verbs. -/
inductive TwiML where
  | say (text : String) (voice : String)
  | gather (input : String) (action : String) (method : String) (language : String)
      (speechTimeout : String) (children : List TwiML)

/-- Whether a verb is a speech-collection window. -/
def hasGatherVerb : TwiML → Bool
  | TwiML.say _ _ => false
  | TwiML.gather _ _ _ _ _ _ => true

/-- Whether a document contains a top-level speech-collection window. -/
def hasGatherDoc (doc : List TwiML) : Bool :=
  doc.any hasGatherVerb

/-- Configuration read from the environment and `webhook_url.txt`. -/
structure ConvConfig where
  webhook_base_url : String
  twilio_voice : String
  twilio_number : String

/-- Outcome of the OpenAI realtime generation exchange inside
`handle_conversation`: an exception anywhere in the `async with` block, or
the assembled `ai_response` text. -/
inductive GenOutcome where
  | fail (err : String)
  | ok (ai_response : String)

/-- Outcome of the `httpx` POST to `/set_reservation`. -/
inductive PostOutcome where
  | fail (err : String)
  | ok

/-- The two external effects one `handle_conversation` run can perform. -/
structure ConvEffects where
  gen : GenOutcome
  post : PostOutcome

/-- The fixed apology line of the `except` handler of `handle_conversation`. -/
def convApologyLine : String :=
  "I apologize for the technical difficulty. Could you please repeat that?"

/-- The document built by the `except` handler of `handle_conversation`: a lone
`say` of the apology — no `gather` is attached there. -/
def conv_fallback_doc (cfg : ConvConfig) : List TwiML :=
  [TwiML.say convApologyLine cfg.twilio_voice]

/-- The document built on success: a `gather` posting back to `/gather`,
speaking the generated line inside the gather. -/
def conv_success_doc (cfg : ConvConfig) (aiResponse : String) : List TwiML :=
  [TwiML.gather ("speech") (cfg.webhook_base_url ++ "/gather") ("POST") ("en-US") ("auto")
    [TwiML.say aiResponse cfg.twilio_voice]]

/-- Embedding of `TwilioReservationAgent.handle_conversation`
(`tools/reservation_agent.py`, lines 92-196) acting on the reservation
object it was handed: on generation success the assistant line is appended
to `chat_history`, then the context is POSTed to `/set_reservation` (a
failing POST lands in the same `except` handler, after the append), and the
gather document is returned; any failure yields the apology-only fallback
document. `isInitial` only changes the prompt text, which the generation
outcome already abstracts. -/
def handle_conversation_local (cfg : ConvConfig) (eff : ConvEffects) (isInitial : Bool)
    (reservation : ReservationDetails) : ReservationDetails × List TwiML :=
  match eff.gen with
  | GenOutcome.fail _ => (reservation, conv_fallback_doc cfg)
  | GenOutcome.ok resp =>
    let r1 := { reservation with
                  chat_history := reservation.chat_history ++ ["AI Assistant: " ++ resp] }
    match eff.post with
    | PostOutcome.fail _ => (r1, conv_fallback_doc cfg)
    | PostOutcome.ok => (r1, conv_success_doc cfg resp)

/-- C2 evaluation: on a turn-generation failure in a non-initial turn the
engine returns, for every reservation context, the fallback document
consisting solely of the fixed apology `say` — the document contains no
speech-collection window at all (the call-control response asks the
counterparty to repeat themselves but collects no further input), and the
raw error text does not reach the document. -/
theorem turn_failure_fallback_lacks_gather (cfg : ConvConfig) (e : String)
    (p : PostOutcome) (r : ReservationDetails) :
    handle_conversation_local cfg ⟨GenOutcome.fail e, p⟩ false r =
      (r, [TwiML.say convApologyLine cfg.twilio_voice]) ∧
    hasGatherDoc (handle_conversation_local cfg ⟨GenOutcome.fail e, p⟩ false r).2 = false :=
  ⟨rfl, rfl⟩

/-- The state of the `reservation_server.py` process: Python objects are
mutated through references, so `ReservationDetails` objects live in a
`heap` keyed by allocation number (`nextRef` is the next fresh key);
`active_calls` maps call SIDs to object references, `current_reservation`
is the module-level global holding a reference, and `analyzed` records, in
order, the references passed to `agent.analyze_call_outcome` (the outcome
analysis plus chat-notification step, abstracted to its invocation event). -/
structure ServerState where
  heap : List (Nat × ReservationDetails)
  nextRef : Nat
  active_calls : List (String × Nat)
  current_reservation : Option Nat
  analyzed : List Nat
deriving DecidableEq, Repr

/-- Dereference a heap object. -/
def heapGet (st : ServerState) (ref : Nat) : Option ReservationDetails :=
  st.heap.lookup ref

/-- Mutate the heap object behind `ref` in place (no-op on a dangling
reference, which Python cannot produce). -/
def heapUpdate (st : ServerState) (ref : Nat)
    (f : ReservationDetails → ReservationDetails) : ServerState :=
  { st with heap := st.heap.map (fun p => if p.1 == ref then (p.1, f p.2) else p) }

/-- Embedding of the `/set_reservation` endpoint (`reservation_server.py`,
lines 41-46): `ReservationDetails(**reservation)` builds a fresh object from
the posted JSON and rebinds the global `current_reservation` to it. -/
def set_reservation (st : ServerState) (r : ReservationDetails) : ServerState :=
  { st with heap := st.heap ++ [(st.nextRef, r)],
            nextRef := st.nextRef + 1,
            current_reservation := some st.nextRef }

/-- Embedding of `handle_conversation` as it runs inside a `/gather` webhook: the
reservation argument is the heap object behind `ref`, and the POST to
`/set_reservation` loops back into the same server process, allocating the
snapshot and rebinding `current_reservation`. -/
def handle_conversation_state (cfg : ConvConfig) (eff : ConvEffects) (isInitial : Bool)
    (st : ServerState) (ref : Nat) : ServerState × List TwiML :=
  match heapGet st ref with
  | none => (st, conv_fallback_doc cfg)
  | some r =>
    match eff.gen with
    | GenOutcome.fail _ => (st, conv_fallback_doc cfg)
    | GenOutcome.ok resp =>
      let r1 := { r with chat_history := r.chat_history ++ ["AI Assistant: " ++ resp] }
      let st1 := heapUpdate st ref (fun _ => r1)
      match eff.post with
      | PostOutcome.fail _ => (st1, conv_fallback_doc cfg)
      | PostOutcome.ok => (set_reservation st1 r1, conv_success_doc cfg resp)

/-- The line of the `else` branch of `/gather` when no reservation is known. -/
def lostTrackLine : String :=
  "I apologize, but I\x27ve lost track of the conversation. Goodbye."

/-- The line of the outer `except` handler of `/gather`. -/
def gatherExceptionLine : String :=
  "I apologize for the technical difficulty. Please try again."

/-- The tail of `/gather` after the reservation lookup
(`reservation_server.py`, lines 102-107): note that both the transcript
append and the turn-engine call use the module-level `current_reservation`,
not the per-call record just looked up. A `none` global here raises
`AttributeError` on the attribute access, landing in the outer `except`
handler. -/
def gatherTurn (cfg : ConvConfig) (eff : ConvEffects) (speech : String)
    (st : ServerState) : ServerState × List TwiML :=
  match st.current_reservation with
  | none => (st, [TwiML.say gatherExceptionLine cfg.twilio_voice])
  | some cur =>
    handle_conversation_state cfg eff false
      (heapUpdate st cur
        (fun r => { r with chat_history := r.chat_history ++ ["User: " ++ speech] }))
      cur

/-- Embedding of the `/gather` webhook handler (`reservation_server.py`,
lines 78-116): look the call SID up in `active_calls`; on a miss, fall back
to the global `current_reservation`, registering it under the SID; with
neither, answer with the lost-track farewell. -/
def handle_gather (cfg : ConvConfig) (eff : ConvEffects) (speech sid : String)
    (st : ServerState) : ServerState × List TwiML :=
  match List.lookup sid st.active_calls with
  | some _ => gatherTurn cfg eff speech st
  | none =>
    match st.current_reservation with
    | some cur =>
      gatherTurn cfg eff speech { st with active_calls := (sid, cur) :: st.active_calls }
    | none => (st, [TwiML.say lostTrackLine cfg.twilio_voice])

/-- Embedding of the `/call_status` webhook handler
(`reservation_server.py`, lines 49-75): if the SID is registered, record the
status on the context, run outcome analysis (logged in `analyzed`), and
delete the record; otherwise do nothing. -/
def handle_call_status (sid status : String) (st : ServerState) : ServerState :=
  match List.lookup sid st.active_calls with
  | none => st
  | some ref =>
    let st1 := heapUpdate st ref (fun r => { r with status := some status })
    { st1 with analyzed := st1.analyzed ++ [ref],
               active_calls := st1.active_calls.filter (fun p => p.1 != sid) }

/-- Looking a key up after deleting it from an association list misses. -/
theorem lookup_removeKey (sid : String) (l : List (String × Nat)) :
    List.lookup sid (l.filter (fun p => p.1 != sid)) = none := by
  induction l with
  | nil => rfl
  | cons a l ih =>
    by_cases h : a.1 = sid
    · simpa [List.filter_cons, h] using ih
    · have hbe : (sid == a.1) = false := by simp [Ne.symm h]
      simp [List.filter_cons, h, List.lookup, ih, bne_iff_ne, hbe]

/-- C3: for a registered call identifier, running the terminal-status
handler twice with the same identifier and status performs outcome analysis
(and with it the chat notification) exactly once — the first run appends
exactly one analysis event and deletes the record, and the second run finds
no record and changes nothing. -/
theorem terminal_status_idempotent (sid status : String) (st : ServerState) (ref : Nat)
    (h : List.lookup sid st.active_calls = some ref) :
    (handle_call_status sid status st).analyzed = st.analyzed ++ [ref] ∧
    handle_call_status sid status (handle_call_status sid status st) =
      handle_call_status sid status st := by
  have hrun : handle_call_status sid status st =
      { heapUpdate st ref (fun r => { r with status := some status }) with
          analyzed := st.analyzed ++ [ref],
          active_calls := st.active_calls.filter (fun p => p.1 != sid) } := by
    simp [handle_call_status, h, heapUpdate]
  have hmiss : List.lookup sid (handle_call_status sid status st).active_calls = none := by
    rw [hrun]
    exact lookup_removeKey sid st.active_calls
  constructor
  · rw [hrun]
  · rw [handle_call_status.eq_def]
    rw [hmiss]

/-- A small populated server state: one live call `CA1` whose context is
heap object `0`, which is also the current reservation. -/
def stOneCall : ServerState :=
  { heap := [(0, { restaurant_phone := "+15551230001",
                   party_size := some 2,
                   reservation_time := ⟨2024, 3, 8, 19, 30, 0⟩,
                   customer_name := some ("Ann"),
                   special_requests := none,
                   chat_history := ["AI Assistant: Hello"] })],
    nextRef := 1,
    active_calls := [("CA1", 0)],
    current_reservation := some 0,
    analyzed := [] }

/-- Concrete instantiation of `terminal_status_idempotent` at `stOneCall`. -/
theorem terminal_status_idempotent_witness :
    (handle_call_status ("CA1") ("completed") stOneCall).analyzed = [0] ∧
    handle_call_status ("CA1") ("completed") (handle_call_status ("CA1") ("completed") stOneCall) =
      handle_call_status ("CA1") ("completed") stOneCall := by
  have h := terminal_status_idempotent ("CA1") ("completed") stOneCall 0 rfl
  exact ⟨h.1, h.2⟩

/-- The in-call turn engine never touches the `active_calls` mapping. -/
theorem handle_conversation_state_active_calls (cfg : ConvConfig) (eff : ConvEffects)
    (isInitial : Bool) (st : ServerState) (ref : Nat) :
    (handle_conversation_state cfg eff isInitial st ref).1.active_calls = st.active_calls := by
  unfold handle_conversation_state
  repeat' split
  all_goals simp [heapUpdate, set_reservation]

/-- The turn pipeline never touches the `active_calls` mapping: transcript
appends and the `/set_reservation` loop-back only touch the heap and the
current-reservation global. -/
theorem gatherTurn_active_calls (cfg : ConvConfig) (eff : ConvEffects) (speech : String)
    (st : ServerState) :
    (gatherTurn cfg eff speech st).1.active_calls = st.active_calls := by
  unfold gatherTurn
  split
  · rfl
  next cur hcur =>
    rw [handle_conversation_state_active_calls]
    simp [heapUpdate]

/-- Demo configuration for concrete runs. -/
def cfgDemo : ConvConfig :=
  { webhook_base_url := "https://demo.example",
    twilio_voice := "Polly.Joanna",
    twilio_number := "+15550000000" }

/-- Demo effects: generation succeeds with the line `Sure.`, POST succeeds. -/
def effDemo : ConvEffects :=
  { gen := GenOutcome.ok ("Sure."), post := PostOutcome.ok }

/-- C4 (amended): the Call-State Store is a plain dict with a global
fallback rather than a register/get API raising
`DuplicateCallId`/`UnknownCallId`: a turn webhook for an already-registered
identifier reuses the stored binding unchanged (nothing is re-registered or
overwritten); for an unknown identifier with a current reservation the
handler registers that reservation under the identifier and proceeds; only
when there is no current reservation either does it give up, answering with
the lost-track farewell document and leaving the state unchanged. -/
theorem store_fallback_semantics (cfg : ConvConfig) (eff : ConvEffects)
    (speech sid : String) (st : ServerState) :
    (∀ ref, List.lookup sid st.active_calls = some ref →
        List.lookup sid (handle_gather cfg eff speech sid st).1.active_calls = some ref) ∧
    (List.lookup sid st.active_calls = none → st.current_reservation = none →
        handle_gather cfg eff speech sid st =
          (st, [TwiML.say lostTrackLine cfg.twilio_voice])) ∧
    (∀ cur, List.lookup sid st.active_calls = none → st.current_reservation = some cur →
        List.lookup sid (handle_gather cfg eff speech sid st).1.active_calls = some cur) := by
  refine ⟨?_, ?_, ?_⟩
  · intro ref h
    unfold handle_gather
    rw [h]
    show List.lookup sid (gatherTurn cfg eff speech st).1.active_calls = some ref
    rw [gatherTurn_active_calls]
    exact h
  · intro h hcur
    unfold handle_gather
    rw [h, hcur]
  · intro cur h hcur
    have hg : handle_gather cfg eff speech sid st =
        gatherTurn cfg eff speech
          { st with active_calls := (sid, cur) :: st.active_calls } := by
      simp [handle_gather, h, hcur]
    rw [hg, gatherTurn_active_calls]
    simp [List.lookup]

/-- Concrete instantiation of `store_fallback_semantics`: the unknown
identifier `CA9` ends up registered to the current reservation. -/
theorem store_fallback_semantics_witness :
    List.lookup ("CA9")
      ((handle_gather cfgDemo effDemo ("hi") ("CA9") stOneCall).1.active_calls) = some 0 :=
  (store_fallback_semantics cfgDemo effDemo ("hi") ("CA9") stOneCall).2.2 0 rfl rfl

/-- C4 counterexample: a lookup for the unregistered identifier `CA9` does
not fail with any `UnknownCallId`-style error — the handler falls back to
the current reservation, registers it under `CA9`, and answers with a
normal speech-collection document. -/
theorem unknown_call_lookup_counterexample :
    (handle_gather cfgDemo effDemo ("hi") ("CA9") stOneCall).2 =
      conv_success_doc cfgDemo ("Sure.") ∧
    List.lookup ("CA9")
      ((handle_gather cfgDemo effDemo ("hi") ("CA9") stOneCall).1.active_calls) = some 0 :=
  ⟨rfl, rfl⟩

/-- The reservation context of call A. -/
def reservationA : ReservationDetails :=
  { restaurant_phone := "+15551230001", party_size := some 2,
    reservation_time := ⟨2024, 3, 8, 19, 0, 0⟩, customer_name := some ("Ann"),
    special_requests := none, chat_history := [] }

/-- The reservation context of call B. -/
def reservationB : ReservationDetails :=
  { restaurant_phone := "+15559870002", party_size := some 4,
    reservation_time := ⟨2024, 3, 9, 20, 0, 0⟩, customer_name := some ("Bob"),
    special_requests := some ("window seat"), chat_history := [] }

/-- Two distinct live calls: `CA_A` bound to heap object 0 (Ann) and `CA_B`
to object 1 (Bob); the global `current_reservation` points at the object of Bob,
as it does after `/set_reservation` was last hit on behalf of call B. -/
def stTwoCalls : ServerState :=
  { heap := [(0, reservationA), (1, reservationB)], nextRef := 2,
    active_calls := [("CA_A", 0), ("CA_B", 1)], current_reservation := some 1,
    analyzed := [] }

/-- C5 evaluation: processing a turn webhook for call `CA_A` leaves the
own context of `CA_A` untouched and instead appends both the counterparty turn and
the assistant line to the context of call `CA_B` — the handler looks the per-call
record up but then mutates the object behind the global
`current_reservation`, contaminating the transcript of the other call. -/
theorem gather_cross_call_contamination :
    heapGet (handle_gather cfgDemo effDemo ("hello there") ("CA_A") stTwoCalls).1 0 =
      some reservationA ∧
    heapGet (handle_gather cfgDemo effDemo ("hello there") ("CA_A") stTwoCalls).1 1 =
      some { reservationB with
               chat_history := ["User: hello there", "AI Assistant: Sure."] } :=
  ⟨rfl, rfl⟩

/-- Weekday index (0 = Sunday) of a Gregorian date, the Sakamoto method, for
the `%A` directive of `strftime`. -/
def weekdayIndex (y m d : Nat) : Nat :=
  let t := [0, 3, 2, 5, 0, 3, 5, 1, 4, 6, 2, 4]
  let y1 := if m < 3 then y - 1 else y
  (y1 + y1 / 4 - y1 / 100 + y1 / 400 + t.getD (m - 1) 0 + d) % 7

/-- Names for `%A`. -/
def dayNames : List String :=
  ["Sunday", "Monday", "Tuesday", "Wednesday", "Thursday", "Friday", "Saturday"]

/-- Names for `%B` (1-indexed months). -/
def monthNames : List String :=
  ["January", "February", "March", "April", "May", "June", "July", "August",
   "September", "October", "November", "December"]

/-- Embedding of `strftime("%I:%M %p on %A, %B %d")`, the rendering used in
the summary of `make_reservation_call`. -/
def strftimeLong (t : PyDateTime) : String :=
  let hour12 := if t.hour % 12 = 0 then 12 else t.hour % 12
  let ampm := if t.hour < 12 then ("AM") else ("PM")
  pad2 hour12 ++ ":" ++ pad2 t.minute ++ " " ++ ampm ++ " on " ++
    dayNames.getD (weekdayIndex t.year t.month t.day) "" ++ ", " ++
    monthNames.getD (t.month - 1) "" ++ " " ++ pad2 t.day

/-- Python f-string rendering of a possibly-`None` integer. -/
def pyShowInt (o : Option Int) : String :=
  match o with
  | none => "None"
  | some n => toString n

/-- Python f-string rendering of a possibly-`None` string. -/
def pyShowStr (o : Option String) : String :=
  o.getD ("None")

/-- Python `x or` fallback rendering: `None` and the empty string both render as the text `None`. -/
def pyOrNone (o : Option String) : String :=
  match o with
  | none => "None"
  | some s => if s = "" then ("None") else s

/-- The message of the `except` handler of `make_reservation_call`,
`f"❌ An unexpected error occurred: {str(e)}"`. -/
def unexpectedErrorMessage (e : String) : String :=
  "❌ An unexpected error occurred: " ++ e

/-- The success summary returned by `make_reservation_call`. -/
def reservation_success_message (phone : String) (r : ReservationDetails) : String :=
  "✓ Starting call with " ++ phone ++ " for your reservation.\n" ++
  "I\x27ll handle the conversation and let you know the outcome.\n" ++
  "Reservation details:\n" ++
  "- Party size: " ++ pyShowInt r.party_size ++ "\n" ++
  "- Time: " ++ strftimeLong r.reservation_time ++ "\n" ++
  "- Name: " ++ pyShowStr r.customer_name ++ "\n" ++
  "- Special requests: " ++ pyOrNone r.special_requests

/-- Outcome of `self.client.calls.create`: the vendor either issues a call
SID or the SDK raises (network, auth, vendor rejection). -/
inductive PlacementOutcome where
  | placed (sid : String)
  | failed (err : String)

/-- Embedding of `TwilioReservationAgent.make_reservation_call`
(`tools/reservation_agent.py`, lines 327-363): normalize the phone (a
`ValueError` lands in the same `except`), produce the opening document via
the turn engine (which never raises), place the call, and return the
summary; any exception yields the `❌`-prefixed message carrying `str(e)`.
The second component is the SID of the placed call, `none` when no call was
placed. The function never touches the `active_calls` store of the server. -/
def make_reservation_call (cfg : ConvConfig) (eff : ConvEffects)
    (place : PlacementOutcome) (reservation : ReservationDetails) :
    String × Option String :=
  match format_phone_number reservation.restaurant_phone with
  | Except.error e => (unexpectedErrorMessage e, none)
  | Except.ok phone =>
    let conv := handle_conversation_local cfg eff true reservation
    match place with
    | PlacementOutcome.failed e => (unexpectedErrorMessage e, none)
    | PlacementOutcome.placed sid => (reservation_success_message phone conv.1, some sid)

/-- A list is a prefix of itself under `isPrefixOf`. -/
theorem isPrefixOf_self (l : List Char) : l.isPrefixOf l = true := by
  induction l with
  | nil => rfl
  | cons a t ih => simp [List.isPrefixOf, ih]

/-- A string contains its own appended suffix. -/
theorem containsStr_append_self (a b : String) : containsStr (a ++ b) b = true := by
  unfold containsStr
  rw [List.any_eq_true]
  refine ⟨b.toList, ?_, isPrefixOf_self b.toList⟩
  rw [List.mem_tails]
  have hdata : (a ++ b).toList = a.toList ++ b.toList := by
    cases a
    cases b
    rfl
  rw [hdata]
  exact List.suffix_append _ _

/-- C9 (amended): when telephony placement fails, `make_reservation_call`
(whose reservation carries a normalizable phone) returns the user-facing
message `❌ An unexpected error occurred: <detail>` — which embeds the raw
error detail — and no call SID, so no CallRecord can come into existence for
the attempt (records are only ever created by the turn webhook of a live
call). -/
theorem placement_failure_behaviour (cfg : ConvConfig) (eff : ConvEffects) (e : String)
    (reservation : ReservationDetails) (phone : String)
    (h : format_phone_number reservation.restaurant_phone = Except.ok phone) :
    make_reservation_call cfg eff (PlacementOutcome.failed e) reservation =
      (unexpectedErrorMessage e, none) ∧
    containsStr (unexpectedErrorMessage e) e = true := by
  constructor
  · unfold make_reservation_call
    rw [h]
  · exact containsStr_append_self ("❌ An unexpected error occurred: ") e

/-- Concrete instantiation of `placement_failure_behaviour`. -/
theorem placement_failure_behaviour_witness :
    make_reservation_call cfgDemo effDemo
        (PlacementOutcome.failed ("Twilio authentication failed")) reservationA =
      (unexpectedErrorMessage ("Twilio authentication failed"), none) :=
  (placement_failure_behaviour cfgDemo effDemo ("Twilio authentication failed")
    reservationA ("+15551230001") rfl).1

/-- C9 counterexample: the message surfaced for a failed placement contains
the raw error detail verbatim — it is not a detail-free apology, and no
`CallPlacementFailed` error value exists anywhere in the flow. -/
theorem placement_failure_raw_detail_counterexample :
    (make_reservation_call cfgDemo effDemo
        (PlacementOutcome.failed ("Twilio authentication failed")) reservationA).1 =
      "❌ An unexpected error occurred: Twilio authentication failed" ∧
    containsStr
      ((make_reservation_call cfgDemo effDemo
        (PlacementOutcome.failed ("Twilio authentication failed")) reservationA).1)
      ("Twilio authentication failed") = true :=
  ⟨rfl, by decide⟩

end Sera
